import Mathlib

/-!
Shallow embedding of the aiCalamba service (src/main.rs).

The program is a small HTTP service that turns an event description
(free text, a URL, or an image) into iCal text by calling two external
integrations: a URL-to-image screenshot API (apiflash) and an LLM
chat-completion API (OpenAI).  The external world (environment
variables, the two network integrations, the url crate's parser, the
jpeg decoder and the icalendar parser) is modelled as an `Env` record
of oracles; the program's own logic is translated function by function
from the source.  Bytes are natural numbers below 256.
-/

/-- Outcome of the base64 alphabet used by BASE64_STANDARD (RFC 4648). -/
def b64Alphabet : List Char :=
  "ABCDEFGHIJKLMNOPQRSTUVWXYZabcdefghijklmnopqrstuvwxyz0123456789+/".toList

/-- Character for a 6-bit group; out-of-range indices give the pad character. -/
def b64Char (n : Nat) : Char := b64Alphabet.getD n '='

/-- Index of a character in the base64 alphabet. -/
def b64Val (c : Char) : Option Nat := b64Alphabet.findIdx? (· = c)

/-- Standard base64 encoding with padding, on byte lists, producing the
character list of the encoded text (the semantics of
BASE64_STANDARD.encode from the base64 crate). -/
def b64EncodeChars : List Nat → List Char
  | [] => []
  | [a] => [b64Char (a / 4), b64Char (a % 4 * 16), '=', '=']
  | [a, b] => [b64Char (a / 4), b64Char (a % 4 * 16 + b / 16), b64Char (b % 16 * 4), '=']
  | a :: b :: c :: rest =>
      b64Char (a / 4) :: b64Char (a % 4 * 16 + b / 16) :: b64Char (b % 16 * 4 + c / 64) ::
        b64Char (c % 64) :: b64EncodeChars rest

/-- Standard base64 encoding as a string. -/
def base64Encode (bytes : List Nat) : String := String.mk (b64EncodeChars bytes)

/-- Base64 decoding on character lists (lenient about leftover bits),
used to certify that the encoding embeds exactly the given bytes. -/
def b64DecodeChars : List Char → Option (List Nat)
  | c1 :: c2 :: c3 :: c4 :: rest =>
      match b64Val c1, b64Val c2 with
      | some v1, some v2 =>
          if c3 = '=' then
            if c4 = '=' ∧ rest = [] then some [v1 * 4 + v2 / 16] else none
          else
            match b64Val c3 with
            | some v3 =>
                if c4 = '=' then
                  if rest = [] then some [v1 * 4 + v2 / 16, v2 % 16 * 16 + v3 / 4] else none
                else
                  match b64Val c4, b64DecodeChars rest with
                  | some v4, some tail =>
                      some ((v1 * 4 + v2 / 16) :: (v2 % 16 * 16 + v3 / 4) ::
                        (v3 % 4 * 64 + v4) :: tail)
                  | _, _ => none
            | none => none
      | _, _ => none
  | [] => some []
  | _ => none

/-- Request form data of POST /text (struct TextRequest). -/
structure TextRequest where
  text : String
deriving DecidableEq, Repr

/-- Client-visible HTTP response: status code and body text. -/
structure Response where
  status : Nat
  body : String
deriving DecidableEq, Repr

/-- Input to the LLM call (enum LlmInput): image bytes or raw text. -/
inductive LlmInput where
  | Image (img : List Nat)
  | Text (t : String)
deriving DecidableEq, Repr

/-- Content part type tag of the openai_api_rs chat API. -/
inductive ContentType where
  | text
  | image_url
deriving DecidableEq, Repr

/-- One part of a two-part image message (struct ImageUrl of openai_api_rs). -/
structure ImageUrl where
  type : ContentType
  text : Option String
  image_url : Option String
deriving DecidableEq, Repr

/-- Message content of the chat request (chat_completion::Content). -/
inductive Content where
  | Text (s : String)
  | ImageUrl (parts : List ImageUrl)
deriving DecidableEq, Repr

/-- One chat message; the program always sends role user. -/
structure ChatCompletionMessage where
  role : String
  content : Content
deriving DecidableEq, Repr

/-- The outbound chat-completion request: model name and messages. -/
structure ChatCompletionRequest where
  model : String
  messages : List ChatCompletionMessage
deriving DecidableEq, Repr

/-- The fixed model selection (common::GPT4_O of openai_api_rs). -/
def GPT4_O : String := "gpt-4o"

/-- The query parameters of the apiflash urltoimage GET request. -/
structure ScreenshotRequest where
  access_key : String
  url : String
  delay : String
deriving DecidableEq, Repr

/-- The error string produced by env::var on a missing variable. -/
def envVarNotFound : String := "environment variable not found"

/-- The external world seen by one request: environment variables and
the outcome oracles of the external integrations.  Each field models a
black-box collaborator of the program, never its own logic. -/
structure Env where
  /-- Formatted current UTC date (chrono Utc::now, format %Y-%m-%d). -/
  now : String
  /-- Environment variable OPENAI_KEY, if set. -/
  openaiKey : Option String
  /-- Environment variable APIFLASH_KEY, if set. -/
  apiflashKey : Option String
  /-- Environment variable ADDR, if set. -/
  addr : Option String
  /-- The url crate's Url::parse: on success, the parsed URL's serialization. -/
  urlParse : String → Option String
  /-- Result of client.chat_completion: transport error, or the first
  choice's optional message content. -/
  llmContent : ChatCompletionRequest → Except String (Option String)
  /-- Result of executing the apiflash GET request: transport error or body bytes. -/
  httpFetch : ScreenshotRequest → Except String (List Nat)
  /-- Result of jpeg_decoder Decoder::decode on the given bytes. -/
  jpegDecode : List Nat → Except String Unit
  /-- Result of icalendar parser read_calendar on the given text. -/
  icalParse : String → Except String Unit

/-- Shared application state (struct AppState): the single-slot
last-screenshot cache, initialized empty at process start. -/
structure AppState where
  last_image : Option (List Nat)
deriving DecidableEq, Repr

/-- The common extraction prompt, parameterized by the current date. -/
def common_prompt (now : String) : String :=
  "Extract the information and format it in text format according to the iCal specification.\n" ++
  "Return nothing but that text.\n" ++
  "If date info is missing, such as the current year, month or day, fill it in from the current date, which is " ++
  now ++ ".\n" ++
  "If no wall clock time is mentioned, make it an all-day event.\n" ++
  "Assume event times are in Europe/Berlin aka CEST timezone.\n" ++
  "Pay attention to events spanning multiple days, and recurring events.\n" ++
  "If only a start time is mentioned but no end time, assume one hour duration."

/-- The chat request built by fetch_llm_hallucinations: the content is
either a two-part list (framing text plus base64 data URI) for an
image, or a single text block for raw text, wrapped in one user
message with the fixed model. -/
def llmRequestOf (env : Env) (input : LlmInput) : ChatCompletionRequest :=
  let content :=
    match input with
    | LlmInput.Image img =>
        Content.ImageUrl
          [ { type := ContentType.text
              text := some ("The following is a picture containing information for an event. " ++
                common_prompt env.now ++ "\nThe image is shown below.")
              image_url := none },
            { type := ContentType.image_url
              text := none
              image_url := some ("data:image/jpeg;base64," ++ base64Encode img) } ]
    | LlmInput.Text t =>
        Content.Text ("The following is the textual description of an event. " ++
          common_prompt env.now ++ "\nThe text is:\n\n" ++ t)
  { model := GPT4_O
    messages := [{ role := "user", content := content }] }

/-- Visits the LLM API and fetches the model response
(fetch_llm_hallucinations).  Returns the extraction result together
with the log lines of the advisory iCal sanity check.  A missing
OPENAI_KEY fails the call; an absent message content yields the
"No LLM response" error; a failing sanity check is logged only and the
content is returned unmodified. -/
def fetch_llm_hallucinations (env : Env) (input : LlmInput) :
    Except String String × List String :=
  match env.openaiKey with
  | none => (Except.error envVarNotFound, [])
  | some _ =>
      match env.llmContent (llmRequestOf env input) with
      | Except.error e => (Except.error e, [])
      | Except.ok none => (Except.error "No LLM response", [])
      | Except.ok (some content) =>
          match env.icalParse content with
          | Except.error e => (Except.ok content, ["Failed to parse iCal content: " ++ e])
          | Except.ok _ => (Except.ok content, ["Parsed iCal content successfully"])

/-- Fetches a screenshot of the page (fetch_screenshot): requires
APIFLASH_KEY, performs the apiflash GET with a 10 second delay
parameter, then decode-verifies the bytes as JPEG before returning
them. -/
def fetch_screenshot (env : Env) (url : String) : Except String (List Nat) :=
  match env.apiflashKey with
  | none => Except.error envVarNotFound
  | some key =>
      match env.httpFetch { access_key := key, url := url, delay := "10" } with
      | Except.error e => Except.error e
      | Except.ok bytes =>
          match env.jpegDecode bytes with
          | Except.error e => Except.error e
          | Except.ok _ => Except.ok bytes

/-- Direct-text processing (process_text): one LLM extraction call. -/
def process_text (env : Env) (text : String) : Except String String :=
  (fetch_llm_hallucinations env (LlmInput.Text text)).1

/-- URL processing (process_url): fetch the screenshot, overwrite the
last-image cache with it, then run the extraction on the image.  The
cache write happens before the extraction call, so the final state
holds the screenshot whatever the extraction outcome. -/
def process_url (env : Env) (url : String) (st : AppState) :
    Except String String × AppState :=
  match fetch_screenshot env url with
  | Except.error e => (Except.error e, st)
  | Except.ok img =>
      let st2 : AppState := { last_image := some img }
      match (fetch_llm_hallucinations env (LlmInput.Image img)).1 with
      | Except.error e => (Except.error e, st2)
      | Except.ok content => (Except.ok content, st2)

/-- Error-path response builder (internal_error): the first component
is the client-visible response, a fixed 500; the second is the
server-side log line carrying the detailed cause. -/
def internal_error (e : String) : Response × String :=
  ({ status := 500, body := "Internal server error" },
   "Server ran into an error: " ++ e)

/-- Trim of a character list: drops whitespace from both ends (the
semantics of Rust str::trim; whitespace classification restricted to
the ASCII whitespace characters, which is all the claims need). -/
def trimChars (l : List Char) : List Char :=
  ((l.dropWhile Char.isWhitespace).reverse.dropWhile Char.isWhitespace).reverse

/-- String-level trim built on the character-list trim. -/
def strTrim (s : String) : String := String.mk (trimChars s.toList)

/-- Handler of POST /text (handle_text): trims the submitted text,
classifies it with Url::parse, and dispatches to process_url on a
successful parse and to process_text otherwise. -/
def handle_text (env : Env) (st : AppState) (payload : TextRequest) :
    Response × AppState :=
  let text := strTrim payload.text
  match env.urlParse text with
  | some url =>
      match process_url env url st with
      | (Except.ok ics, st2) => ({ status := 200, body := ics }, st2)
      | (Except.error e, st2) => ((internal_error e).1, st2)
  | none =>
      match process_text env text with
      | Except.ok ics => ({ status := 200, body := ics }, st)
      | Except.error e => ((internal_error e).1, st)

/-- Outcome of reading the first multipart field of POST /image:
next_field may fail, be absent, or yield a field whose bytes read
fails or succeeds. -/
inductive MultipartOutcome where
  | err (e : String)
  | missing
  | bytesErr (e : String)
  | bytes (img : List Nat)
deriving DecidableEq, Repr

/-- Handler of POST /image (handle_image).  The source handler takes no
State extractor, so it cannot touch the shared cache: the state is
threaded through unchanged.  Any multipart failure yields 400; image
bytes go to the LLM extraction call. -/
def handle_image (env : Env) (st : AppState) (mp : MultipartOutcome) :
    Response × AppState :=
  (match mp with
   | MultipartOutcome.bytes img =>
       match (fetch_llm_hallucinations env (LlmInput.Image img)).1 with
       | Except.ok ics => { status := 200, body := ics }
       | Except.error e => (internal_error e).1
   | MultipartOutcome.bytesErr _ => { status := 400, body := "Failed to read image file" }
   | MultipartOutcome.missing => { status := 400, body := "Failed to read image file" }
   | MultipartOutcome.err _ => { status := 400, body := "Failed to read image file" },
   st)

/-- Response of GET /image/last (serve_last_image). -/
inductive LastImageResponse where
  | image (img : List Nat)
  | notFound
deriving DecidableEq, Repr

/-- Handler of GET /image/last: serves the cached screenshot, or 404
when none has been captured yet. -/
def serve_last_image (st : AppState) : LastImageResponse :=
  match st.last_image with
  | some img => LastImageResponse.image img
  | none => LastImageResponse.notFound

/-- Startup (main): the only environment value read at process start is
ADDR, with the documented default bind address as fallback; neither
API credential is consulted here.  The returned string is the bind
address the listener is created with. -/
def main_startup (env : Env) : Except String String :=
  Except.ok (env.addr.getD "0.0.0.0:3000")

/-- Every 6-bit value maps to its alphabet character and back. -/
theorem b64Val_b64Char_fin : ∀ v : Fin 64, b64Val (b64Char v.1) = some v.1 := by decide

/-- Value-level form of the alphabet round trip. -/
theorem b64Val_b64Char (v : Nat) (h : v < 64) : b64Val (b64Char v) = some v :=
  b64Val_b64Char_fin ⟨v, h⟩

/-- No 6-bit value is encoded as the pad character. -/
theorem b64Char_ne_pad_fin : ∀ v : Fin 64, b64Char v.1 ≠ '=' := by decide

/-- Value-level form of the pad separation. -/
theorem b64Char_ne_pad (v : Nat) (h : v < 64) : b64Char v ≠ '=' :=
  b64Char_ne_pad_fin ⟨v, h⟩

/-- Decoding inverts encoding on byte lists: the encoded text determines
exactly the original bytes. -/
theorem b64_roundtrip (l : List Nat) (h : ∀ b ∈ l, b < 256) :
    b64DecodeChars (b64EncodeChars l) = some l := by
  induction l using b64EncodeChars.induct with
  | case1 => rfl
  | case2 a =>
      have ha : a < 256 := h a (by simp)
      have h1 : a / 4 < 64 := by omega
      have h2 : a % 4 * 16 < 64 := by omega
      simp [b64EncodeChars, b64DecodeChars, b64Val_b64Char _ h1, b64Val_b64Char _ h2]
      omega
  | case3 a b =>
      have ha : a < 256 := h a (by simp)
      have hb : b < 256 := h b (by simp)
      have h1 : a / 4 < 64 := by omega
      have h2 : a % 4 * 16 + b / 16 < 64 := by omega
      have h3 : b % 16 * 4 < 64 := by omega
      simp [b64EncodeChars, b64DecodeChars, b64Val_b64Char _ h1, b64Val_b64Char _ h2,
        b64Val_b64Char _ h3, b64Char_ne_pad _ h3]
      omega
  | case4 a b c rest ih =>
      have ha : a < 256 := h a (by simp)
      have hb : b < 256 := h b (by simp)
      have hc : c < 256 := h c (by simp)
      have h1 : a / 4 < 64 := by omega
      have h2 : a % 4 * 16 + b / 16 < 64 := by omega
      have h3 : b % 16 * 4 + c / 64 < 64 := by omega
      have h4 : c % 64 < 64 := by omega
      have ihr : b64DecodeChars (b64EncodeChars rest) = some rest := by
        refine ih ?_
        intro x hx
        exact h x (by simp [hx])
      simp [b64EncodeChars, b64DecodeChars, b64Val_b64Char _ h1, b64Val_b64Char _ h2,
        b64Val_b64Char _ h3, b64Val_b64Char _ h4, b64Char_ne_pad _ h3, b64Char_ne_pad _ h4,
        ihr]
      omega

/-- Concrete environment shared by the witnesses: both credentials set,
one fixed parseable URL, a fixed LLM answer, a small fixed screenshot,
a passing jpeg decoder and a failing iCal sanity check. -/
def envW : Env :=
  { now := "2026-10-12"
    openaiKey := some "sk-test"
    apiflashKey := some "af-test"
    addr := none
    urlParse := fun s => if s = "https://example.com/" then some "https://example.com/" else none
    llmContent := fun _ => Except.ok (some "BEGIN:VCALENDAR")
    httpFetch := fun _ => Except.ok [255, 216, 255]
    jpegDecode := fun _ => Except.ok ()
    icalParse := fun _ => Except.error "bad" }

/-- Environment whose LLM integration answers with no message content. -/
def envNoContent : Env := { envW with llmContent := fun _ => Except.ok none }

/-- Environment with no configuration variables set at all. -/
def envNoKeys : Env := { envW with openaiKey := none, apiflashKey := none, addr := none }

/-- Environment whose screenshot bytes fail the JPEG decode check. -/
def envBadJpeg : Env := { envW with jpegDecode := fun _ => Except.error "jpeg error" }

/-- Environment whose LLM call fails with a transport error. -/
def envLlmErr : Env := { envW with llmContent := fun _ => Except.error "llm timeout" }

/-- C1: the trimmed text of POST /text is routed by parseability alone:
a successful Url::parse takes the screenshot-then-extract path through
process_url, a failed parse takes the direct-text path through
process_text. -/
theorem c1_text_routing (env : Env) (st : AppState) (payload : TextRequest) :
    (∀ url, env.urlParse (strTrim payload.text) = some url →
      handle_text env st payload =
        (match process_url env url st with
         | (Except.ok ics, st2) => ({ status := 200, body := ics }, st2)
         | (Except.error e, st2) => ((internal_error e).1, st2))) ∧
    (env.urlParse (strTrim payload.text) = none →
      handle_text env st payload =
        ((match process_text env (strTrim payload.text) with
          | Except.ok ics => { status := 200, body := ics }
          | Except.error e => (internal_error e).1), st)) := by
  constructor
  · intro url h
    simp only [handle_text]
    rw [h]
  · intro h
    simp only [handle_text]
    rw [h]
    cases process_text env (strTrim payload.text) <;> rfl

/-- Witness for C1 at a concrete URL input and a concrete free-text input. -/
theorem c1_text_routing_witness :
    (envW.urlParse (strTrim " https://example.com/ ") = some "https://example.com/" ∧
      handle_text envW { last_image := none } { text := " https://example.com/ " } =
        (match process_url envW "https://example.com/" { last_image := none } with
         | (Except.ok ics, st2) => ({ status := 200, body := ics }, st2)
         | (Except.error e, st2) => ((internal_error e).1, st2))) ∧
    (envW.urlParse (strTrim "Dinner tomorrow at 7pm") = none ∧
      handle_text envW { last_image := none } { text := "Dinner tomorrow at 7pm" } =
        ((match process_text envW (strTrim "Dinner tomorrow at 7pm") with
          | Except.ok ics => { status := 200, body := ics }
          | Except.error e => (internal_error e).1), { last_image := none })) :=
  ⟨⟨by decide,
    (c1_text_routing envW { last_image := none } { text := " https://example.com/ " }).1
      "https://example.com/" (by decide)⟩,
   ⟨by decide,
    (c1_text_routing envW { last_image := none } { text := "Dinner tomorrow at 7pm" }).2
      (by decide)⟩⟩

/-- C2: when the chat completion carries no message content the
extraction call fails with the "No LLM response" error and never
returns a success. -/
theorem c2_no_llm_response (env : Env) (input : LlmInput) (k : String)
    (hk : env.openaiKey = some k)
    (hr : env.llmContent (llmRequestOf env input) = Except.ok none) :
    (fetch_llm_hallucinations env input).1 = Except.error "No LLM response" ∧
    ∀ s, (fetch_llm_hallucinations env input).1 ≠ Except.ok s := by
  have h : (fetch_llm_hallucinations env input).1 = Except.error "No LLM response" := by
    simp [fetch_llm_hallucinations, hk, hr]
  exact ⟨h, fun s hs => by rw [h] at hs; cases hs⟩

/-- Witness for C2 on a concrete environment returning empty content. -/
theorem c2_no_llm_response_witness :
    (fetch_llm_hallucinations envNoContent (LlmInput.Text "party friday")).1 =
      Except.error "No LLM response" :=
  (c2_no_llm_response envNoContent (LlmInput.Text "party friday") "sk-test" rfl rfl).1

/-- C3 counterexample: with every configuration variable unset the
process still starts successfully on the default bind address — it
does not fail fast — and the credential lookups happen only at request
time, where each fails that single request with the missing-variable
error. -/
theorem c3_counterexample :
    main_startup envNoKeys = Except.ok "0.0.0.0:3000" ∧
    (fetch_llm_hallucinations envNoKeys (LlmInput.Text "x")).1 = Except.error envVarNotFound ∧
    fetch_screenshot envNoKeys "https://example.com/" = Except.error envVarNotFound :=
  ⟨rfl, rfl, rfl⟩

/-- C3 amended: startup reads only the bind address, falling back to
the documented default when ADDR is unset, and never fails over a
missing credential; each API credential is looked up at request time
inside the respective outbound call, where its absence fails only that
request. -/
theorem c3_config_amended (env : Env) :
    main_startup env = Except.ok (env.addr.getD "0.0.0.0:3000") ∧
    (env.openaiKey = none →
      ∀ input, (fetch_llm_hallucinations env input).1 = Except.error envVarNotFound) ∧
    (env.apiflashKey = none →
      ∀ url, fetch_screenshot env url = Except.error envVarNotFound) := by
  refine ⟨rfl, ?_, ?_⟩
  · intro h input
    simp [fetch_llm_hallucinations, h]
  · intro h url
    simp [fetch_screenshot, h]

/-- Witness for the amended C3 on the fully unset environment. -/
theorem c3_config_amended_witness :
    main_startup envNoKeys = Except.ok (envNoKeys.addr.getD "0.0.0.0:3000") ∧
    (fetch_llm_hallucinations envNoKeys (LlmInput.Text "hello")).1 =
      Except.error envVarNotFound ∧
    fetch_screenshot envNoKeys "https://example.org/" = Except.error envVarNotFound :=
  ⟨(c3_config_amended envNoKeys).1,
   (c3_config_amended envNoKeys).2.1 rfl (LlmInput.Text "hello"),
   (c3_config_amended envNoKeys).2.2 rfl "https://example.org/"⟩

/-- C4: the advisory iCal sanity check never alters the extraction
result: whatever the parse outcome on the returned content, the
content is returned unmodified as a success, and a parse failure is
recorded only in the log. -/
theorem c4_validator_advisory (env : Env) (input : LlmInput) (k content : String)
    (hk : env.openaiKey = some k)
    (hr : env.llmContent (llmRequestOf env input) = Except.ok (some content)) :
    (fetch_llm_hallucinations env input).1 = Except.ok content ∧
    (∀ e, env.icalParse content = Except.error e →
      (fetch_llm_hallucinations env input).2 = ["Failed to parse iCal content: " ++ e]) := by
  have hfetch : fetch_llm_hallucinations env input =
      match env.icalParse content with
      | Except.error e => (Except.ok content, ["Failed to parse iCal content: " ++ e])
      | Except.ok _ => (Except.ok content, ["Parsed iCal content successfully"]) := by
    simp [fetch_llm_hallucinations, hk, hr]
  constructor
  · rw [hfetch]
    cases env.icalParse content <;> rfl
  · intro e he
    rw [hfetch, he]

/-- Witness for C4 on a concrete environment whose sanity check fails. -/
theorem c4_validator_advisory_witness :
    (fetch_llm_hallucinations envW (LlmInput.Text "party")).1 =
      Except.ok "BEGIN:VCALENDAR" ∧
    (fetch_llm_hallucinations envW (LlmInput.Text "party")).2 =
      ["Failed to parse iCal content: bad"] :=
  ⟨(c4_validator_advisory envW (LlmInput.Text "party") "sk-test" "BEGIN:VCALENDAR" rfl rfl).1,
   (c4_validator_advisory envW (LlmInput.Text "party") "sk-test" "BEGIN:VCALENDAR" rfl rfl).2
     "bad" rfl⟩

/-- C5: the screenshot acquirer succeeds only on bytes that pass the
JPEG decode check, and a decode failure is surfaced as the acquisition
error, never forwarded. -/
theorem c5_jpeg_gate (env : Env) (url : String) :
    (∀ img, fetch_screenshot env url = Except.ok img →
      env.jpegDecode img = Except.ok ()) ∧
    (∀ k bytes e, env.apiflashKey = some k →
      env.httpFetch { access_key := k, url := url, delay := "10" } = Except.ok bytes →
      env.jpegDecode bytes = Except.error e →
      fetch_screenshot env url = Except.error e) := by
  constructor
  · intro img h
    unfold fetch_screenshot at h
    split at h
    · cases h
    next key hk =>
      split at h
      next e hf => cases h
      next bytes hf =>
        split at h
        next e hj => cases h
        next u hj =>
          cases h
          cases u
          exact hj
  · intro k bytes e hk hf hj
    simp [fetch_screenshot, hk, hf, hj]

/-- Witness for C5: a passing decode is required for success, and a
failing decode turns into the acquisition error. -/
theorem c5_jpeg_gate_witness :
    envW.jpegDecode [255, 216, 255] = Except.ok () ∧
    fetch_screenshot envBadJpeg "https://example.com/" = Except.error "jpeg error" :=
  ⟨(c5_jpeg_gate envW "https://example.com/").1 [255, 216, 255] rfl,
   (c5_jpeg_gate envBadJpeg "https://example.com/").2 "af-test" [255, 216, 255] "jpeg error"
     rfl rfl rfl⟩

/-- C6: the image-modality request always carries the image as a
MIME-tagged data URI whose payload is the standard base64 encoding of
exactly the image bytes — exactness certified by the decode round
trip. -/
theorem c6_data_uri (env : Env) (img : List Nat) (h : ∀ b ∈ img, b < 256) :
    (∃ instructions,
      (llmRequestOf env (LlmInput.Image img)).messages =
        [{ role := "user"
           content := Content.ImageUrl
             [ { type := ContentType.text, text := some instructions, image_url := none },
               { type := ContentType.image_url, text := none,
                 image_url := some ("data:image/jpeg;base64," ++ base64Encode img) } ] }]) ∧
    b64DecodeChars (b64EncodeChars img) = some img :=
  ⟨⟨"The following is a picture containing information for an event. " ++
      common_prompt env.now ++ "\nThe image is shown below.", rfl⟩,
   b64_roundtrip img h⟩

/-- Witness for C6 on a concrete four-byte image. -/
theorem c6_data_uri_witness :
    (∀ b ∈ [0, 255, 16, 32], b < 256) ∧
    b64DecodeChars (b64EncodeChars [0, 255, 16, 32]) = some [0, 255, 16, 32] ∧
    (llmRequestOf envW (LlmInput.Image [0, 255, 16, 32])).messages =
      [{ role := "user"
         content := Content.ImageUrl
           [ { type := ContentType.text
               text := some ("The following is a picture containing information for an event. " ++
                 common_prompt envW.now ++ "\nThe image is shown below.")
               image_url := none },
             { type := ContentType.image_url, text := none,
               image_url := some ("data:image/jpeg;base64," ++
                 base64Encode [0, 255, 16, 32]) } ] }] :=
  ⟨by decide,
   (c6_data_uri envW [0, 255, 16, 32] (by decide)).2,
   rfl⟩

/-- C7: in the URL path, once the screenshot fetch succeeds the cache
slot is overwritten with the screenshot bytes before the extraction
call, so the final state holds them whatever the extraction outcome. -/
theorem c7_cache_overwrite (env : Env) (url : String) (st : AppState) (img : List Nat)
    (h : fetch_screenshot env url = Except.ok img) :
    (process_url env url st).2 = { last_image := some img } := by
  unfold process_url
  rw [h]
  dsimp only
  cases (fetch_llm_hallucinations env (LlmInput.Image img)).1 <;> rfl

/-- Witness for C7 on an environment whose extraction call fails: the
cache still holds the screenshot afterwards. -/
theorem c7_cache_overwrite_witness :
    (process_url envLlmErr "https://example.com/" { last_image := none }).2 =
      { last_image := some [255, 216, 255] } :=
  c7_cache_overwrite envLlmErr "https://example.com/" { last_image := none }
    [255, 216, 255] rfl

/-- C8: error responses of the text pipeline are uniform: internal_error
yields the same fixed 500 response for any two causes (the cause goes
only to the server-side log line), and every non-200 response of
handle_text is that fixed response. -/
theorem c8_uniform_error_response :
    (∀ e1 e2, (internal_error e1).1 = (internal_error e2).1) ∧
    (∀ e, (internal_error e).1 = { status := 500, body := "Internal server error" } ∧
      (internal_error e).2 = "Server ran into an error: " ++ e) ∧
    (∀ env st payload,
      (handle_text env st payload).1.status = 200 ∨
      (handle_text env st payload).1 = { status := 500, body := "Internal server error" }) := by
  refine ⟨fun e1 e2 => rfl, fun e => ⟨rfl, rfl⟩, ?_⟩
  intro env st payload
  simp only [handle_text]
  cases env.urlParse (strTrim payload.text) with
  | some url =>
      dsimp only
      rcases hp : process_url env url st with ⟨r, st2⟩
      cases r with
      | ok ics => left; rfl
      | error e => right; rfl
  | none =>
      dsimp only
      cases process_text env (strTrim payload.text) with
      | ok ics => left; rfl
      | error e => right; rfl

/-- C9: the outbound chat request is a function of the current date and
the input alone: two environments agreeing on the date produce the
same request for the same input, whatever their other components. -/
theorem c9_request_deterministic (env1 env2 : Env) (input : LlmInput)
    (h : env1.now = env2.now) :
    llmRequestOf env1 input = llmRequestOf env2 input := by
  cases input <;> simp [llmRequestOf, h]

/-- Witness for C9: two environments sharing the date but differing in
their oracles build identical requests. -/
theorem c9_request_deterministic_witness :
    llmRequestOf envW (LlmInput.Text "picnic") =
      llmRequestOf envNoContent (LlmInput.Text "picnic") :=
  c9_request_deterministic envW envNoContent (LlmInput.Text "picnic") rfl

/-- C10: only the URL branch writes the last-image cache: the free-text
branch of handle_text and the image endpoint leave the state, and
hence the last-image endpoint's view, unchanged. -/
theorem c10_cache_frame (env : Env) (st : AppState) (payload : TextRequest)
    (mp : MultipartOutcome) :
    (env.urlParse (strTrim payload.text) = none →
      (handle_text env st payload).2 = st ∧
      serve_last_image (handle_text env st payload).2 = serve_last_image st) ∧
    (handle_image env st mp).2 = st ∧
    serve_last_image (handle_image env st mp).2 = serve_last_image st := by
  refine ⟨?_, rfl, rfl⟩
  intro h
  have hst : (handle_text env st payload).2 = st := by
    simp only [handle_text]
    rw [h]
    cases process_text env (strTrim payload.text) <;> rfl
  exact ⟨hst, by rw [hst]⟩

/-- Witness for C10 on a concrete non-URL text request and a concrete
image request against a populated cache. -/
theorem c10_cache_frame_witness :
    envW.urlParse (strTrim "lunch on monday") = none ∧
    (handle_text envW { last_image := some [1, 2, 3] } { text := "lunch on monday" }).2 =
      { last_image := some [1, 2, 3] } ∧
    (handle_image envW { last_image := some [1, 2, 3] } (MultipartOutcome.bytes [9])).2 =
      { last_image := some [1, 2, 3] } :=
  ⟨by decide,
   ((c10_cache_frame envW { last_image := some [1, 2, 3] } { text := "lunch on monday" }
      (MultipartOutcome.bytes [9])).1 (by decide)).1,
   (c10_cache_frame envW { last_image := some [1, 2, 3] } { text := "lunch on monday" }
      (MultipartOutcome.bytes [9])).2.1⟩
